import Mathlib

/-!
Verification of the checkpoint-driven extraction engine of keap-data-extract.

This file gives a shallow embedding, in Lean 4, of the core components of the
repository and proves (or refutes) the frozen claims about them:

* `src/src/utils/retry.py` — the retry policy (`exponential_backoff`,
  `get_throttle_retry_delay`, `safe_int_parse`);
* `src/src/api/exceptions.py` — the exception class hierarchy;
* `src/src/scripts/load_data.py` — `CheckpointManager` (`save_checkpoint`,
  `get_checkpoint`, `get_last_loaded_timestamp`, `get_query_params`);
* `src/src/scripts/loaders/base_loader.py` — the `EntityLoader` template
  (`get_query_params`, `get_initial_offset`, `_load_with_pagination`);
* `src/src/scripts/load_data_manager.py` — `DataLoadManager.load_all_data`;
* `src/src/scripts/reprocess_errors.py` — `ErrorReprocessor`.

Python effects are made explicit: exceptions become `Except` values, the
mutable checkpoint dictionary becomes explicit state passing, calls to
`random` become oracle arguments, and attribute lookup on the duck-typed
checkpoint manager is modelled against the method table that the class
actually defines.
-/

/-! ## Exception classes (src/src/api/exceptions.py)

The class hierarchy is: `Exception` ← `KeapAPIError` ← each of the six
specific errors.  `KeapRateLimitError` additionally carries
`response_headers`. -/

/-- The exception classes of `src/src/api/exceptions.py` plus the Python root
class `Exception`. -/
inductive ExcClass
  | exception
  | keapAPIError
  | keapAuthenticationError
  | keapValidationError
  | keapRateLimitError
  | keapNotFoundError
  | keapServerError
  | keapQuotaExhaustedError
  deriving DecidableEq, Repr

/-- The ancestors of a class (itself included), following the hierarchy of
`exceptions.py`: every `Keap*` class derives from `KeapAPIError`, which
derives from `Exception`. -/
def ExcClass.ancestors : ExcClass → List ExcClass
  | .exception => [.exception]
  | .keapAPIError => [.keapAPIError, .exception]
  | c => [c, .keapAPIError, .exception]

/-- Python `issubclass`. -/
def ExcClass.isSubclassOf (c d : ExcClass) : Bool :=
  c.ancestors.contains d

/-- A `response_headers` attribute value.  `KeapRateLimitError.__init__`
normally stores a dict (defaulting to an empty one), but being plain Python
the attribute can also hold an object without a `.get` method, in which case
`headers.get(...)` raises `AttributeError`. -/
inductive HeadersObj
  | dict (entries : List (String × String))
  | nonMapping
  deriving DecidableEq, Repr

/-- `dict.get(key)` on a Python string-to-string dict. -/
def HeadersObj.dictGet (entries : List (String × String)) (key : String) : Option String :=
  (entries.lookup key)

/-- A raised exception value, as the retry policy distinguishes them.  Only
rate-limit errors carry data the policy reads. -/
inductive PyExc
  | rateLimit (headers : HeadersObj)
  | serverError
  | quotaExhausted
  | notFound
  | validationError
  | authenticationError
  | apiError
  | generic
  deriving DecidableEq, Repr

/-- The class of an exception value. -/
def PyExc.cls : PyExc → ExcClass
  | .rateLimit _ => .keapRateLimitError
  | .serverError => .keapServerError
  | .quotaExhausted => .keapQuotaExhaustedError
  | .notFound => .keapNotFoundError
  | .validationError => .keapValidationError
  | .authenticationError => .keapAuthenticationError
  | .apiError => .keapAPIError
  | .generic => .exception

/-- Python `isinstance(e, c)`. -/
def PyExc.isInstance (e : PyExc) (c : ExcClass) : Bool :=
  e.cls.isSubclassOf c

/-- Whether `except exceptions as e` catches `e`, for a tuple of classes. -/
def PyExc.caughtBy (e : PyExc) (excs : List ExcClass) : Bool :=
  excs.any (fun c => e.isInstance c)

/-! ## Retry policy (src/src/utils/retry.py) -/

/-- Decimal digit accumulation, rejecting any non-digit character. -/
def pyParseDigitsAux : List Char → Nat → Option Nat
  | [], acc => some acc
  | c :: rest, acc =>
    if c.isDigit then pyParseDigitsAux rest (acc * 10 + (c.toNat - 48)) else none

/-- Python `int(s)` on a decimal string literal: an optional leading minus
sign followed by at least one digit; anything else raises `ValueError`
(modelled as `none`). -/
def pyIntParse (s : String) : Option Int :=
  match s.toList with
  | [] => none
  | '-' :: rest =>
    match rest with
    | [] => none
    | _ => (pyParseDigitsAux rest 0).map (fun n => -(n : Int))
  | l => (pyParseDigitsAux l 0).map (fun n => (n : Int))

/-- `safe_int_parse` (retry.py lines 35-42): parse an integer from an optional
header value, returning the default on `None`, the empty string, or a value
`int()` rejects. -/
def safe_int_parse (value : Option String) (default : Int) : Int :=
  match value with
  | none => default
  | some s => if s = "" then default else (pyIntParse s).getD default

/-- `get_throttle_retry_delay` (retry.py lines 13-32): `none` means no retry
delay is needed (capacity available in both windows); otherwise the delay is
60 seconds plus jitter.  `uniformJitter` stands for the sampled value of
`random.uniform(0, 10.0)`. -/
def get_throttle_retry_delay (throttle_available tenant_available : Int)
    (uniformJitter : ℚ) : Option ℚ :=
  if throttle_available > 0 ∧ tenant_available > 0 then none
  else some (60 + uniformJitter)

/-- Configuration of the `exponential_backoff` decorator (retry.py line 45). -/
structure RetryConfig where
  maxRetries : Nat
  baseDelay : ℚ
  maxDelay : ℚ
  exponentialBase : ℚ
  jitter : Bool
  exceptions : List ExcClass
  deriving Repr

/-- The exponential-backoff delay of retry.py lines 115-117 and 120-122:
`min(base_delay * exponential_base ** (attempt - 1), max_delay)`, multiplied
by `(0.5 + random.random())` when jitter is enabled.  `randomUnit` stands for
the sampled value of `random.random()`. -/
def expBackoffDelay (cfg : RetryConfig) (attempt : Nat) (randomUnit : ℚ) : ℚ :=
  let d := min (cfg.baseDelay * cfg.exponentialBase ^ (attempt - 1)) cfg.maxDelay
  if cfg.jitter then d * (1/2 + randomUnit) else d

/-- What the handler decides to do before the next attempt. -/
inductive DelayOutcome
  | immediate
  | sleep (d : ℚ)
  deriving DecidableEq, Repr

/-- The rate-limit branch of the wrapper (retry.py lines 90-117): read the
throttle headers with safe integer parsing and compute the delay; when the
headers object has no `.get` (an `AttributeError` while reading), fall back
to exponential backoff.  `uniformJitter` samples `random.uniform(0, 10.0)`
and `randomUnit` samples `random.random()`. -/
def rateLimitDelay (headers : HeadersObj) (attempt : Nat) (cfg : RetryConfig)
    (uniformJitter randomUnit : ℚ) : DelayOutcome :=
  match headers with
  | .nonMapping => .sleep (expBackoffDelay cfg attempt randomUnit)
  | .dict h =>
    let throttle_available := safe_int_parse (HeadersObj.dictGet h "x-keap-product-throttle-available") 0
    let tenant_available := safe_int_parse (HeadersObj.dictGet h "x-keap-tenant-throttle-available") 0
    match get_throttle_retry_delay throttle_available tenant_available uniformJitter with
    | none => .immediate
    | some d => .sleep d

/-- The delay decision for one caught, retryable, non-quota exception
(retry.py lines 89-126): rate-limit errors go through `rateLimitDelay`,
everything else through plain exponential backoff. -/
def delayStep (e : PyExc) (attempt : Nat) (cfg : RetryConfig)
    (uniformJitter randomUnit : ℚ) : DelayOutcome :=
  match e with
  | .rateLimit headers => rateLimitDelay headers attempt cfg uniformJitter randomUnit
  | _ => .sleep (expBackoffDelay cfg attempt randomUnit)

/-- Observable behaviour of one call of a function wrapped by
`exponential_backoff`: how many times the wrapped operation was invoked,
which sleeps were performed (in order), and the final outcome. -/
structure RetryTrace (α : Type) where
  invocations : Nat
  sleeps : List ℚ
  result : Except PyExc α
  deriving Repr

/-- The `while attempt <= max_retries` loop of the wrapper (retry.py lines
74-126).  `f k` is the outcome of the k-th invocation of the wrapped
operation (0-indexed); `uJ k` and `rU k` are the random samples available at
attempt number `k`.  `fuel` is `cfg.maxRetries - attempt`, which bounds the
number of remaining loop iterations; the `fuel = 0` fallback inside is
unreachable because the `attempt + 1 > max_retries` re-raise fires first. -/
def retryGo {α : Type} (cfg : RetryConfig) (f : Nat → Except PyExc α)
    (uJ rU : Nat → ℚ) : Nat → Nat → List ℚ → RetryTrace α
  | attempt, fuel, sleeps =>
    match f attempt with
    | .ok v => ⟨attempt + 1, sleeps.reverse, .ok v⟩
    | .error e =>
      if ¬ e.caughtBy cfg.exceptions then ⟨attempt + 1, sleeps.reverse, .error e⟩
      else if e.isInstance .keapQuotaExhaustedError then ⟨attempt + 1, sleeps.reverse, .error e⟩
      else if cfg.maxRetries < attempt + 1 then ⟨attempt + 1, sleeps.reverse, .error e⟩
      else
        match fuel with
        | 0 => ⟨attempt + 1, sleeps.reverse, .error e⟩
        | fuel' + 1 =>
          match delayStep e (attempt + 1) cfg (uJ (attempt + 1)) (rU (attempt + 1)) with
          | .immediate => retryGo cfg f uJ rU (attempt + 1) fuel' sleeps
          | .sleep d => retryGo cfg f uJ rU (attempt + 1) fuel' (d :: sleeps)

/-- One call of a function wrapped by `exponential_backoff(cfg)`. -/
def exponentialBackoffRun {α : Type} (cfg : RetryConfig) (f : Nat → Except PyExc α)
    (uJ rU : Nat → ℚ) : RetryTrace α :=
  retryGo cfg f uJ rU 0 cfg.maxRetries []

/-- The configuration every call site in the repository uses:
`max_retries=5, base_delay=1.0, max_delay=60.0, exponential_base=2.0,
jitter=True, exceptions=(KeapRateLimitError, KeapServerError)`. -/
def loaderRetryConfig : RetryConfig :=
  ⟨5, 1, 60, 2, true, [.keapRateLimitError, .keapServerError]⟩

/-! ## Retry policy lemmas -/

/-- The loop invokes the operation at most once per remaining iteration. -/
theorem retryGo_invocations_le {α : Type} (cfg : RetryConfig) (f : Nat → Except PyExc α)
    (uJ rU : Nat → ℚ) : ∀ fuel attempt sleeps,
    (retryGo cfg f uJ rU attempt fuel sleeps).invocations ≤ attempt + fuel + 1 := by
  intro fuel
  induction fuel with
  | zero =>
    intro attempt sleeps
    rw [retryGo]
    split
    · dsimp only; omega
    · split_ifs <;> (dsimp only; omega)
  | succ fuel' ih =>
    intro attempt sleeps
    rw [retryGo]
    split
    · dsimp only; omega
    · split_ifs <;> (try dsimp only)
      all_goals try omega
      all_goals
        cases hd : delayStep _ (attempt + 1) cfg (uJ (attempt + 1)) (rU (attempt + 1)) with
        | immediate =>
          dsimp only
          have := ih (attempt + 1) sleeps
          omega
        | sleep d =>
          dsimp only
          have := ih (attempt + 1) (d :: sleeps)
          omega

/-- When every invocation raises a caught, non-quota exception, the loop
performs exactly one invocation per allowed attempt and re-raises the last
exception. -/
theorem retryGo_all_fail {α : Type} (cfg : RetryConfig) (f : Nat → Except PyExc α)
    (uJ rU : Nat → ℚ) (es : Nat → PyExc)
    (hfail : ∀ k, f k = .error (es k))
    (hcaught : ∀ k, (es k).caughtBy cfg.exceptions = true)
    (hnq : ∀ k, (es k).isInstance .keapQuotaExhaustedError = false) :
    ∀ fuel attempt sleeps, attempt + fuel = cfg.maxRetries →
    (retryGo cfg f uJ rU attempt fuel sleeps).invocations = cfg.maxRetries + 1 ∧
    (retryGo cfg f uJ rU attempt fuel sleeps).result = .error (es cfg.maxRetries) := by
  intro fuel
  induction fuel with
  | zero =>
    intro attempt sleeps h
    have ha : attempt = cfg.maxRetries := by omega
    subst ha
    rw [retryGo, hfail _]
    simp [hcaught _, hnq _]
  | succ fuel' ih =>
    intro attempt sleeps h
    have hlt : ¬ cfg.maxRetries < attempt + 1 := by omega
    rw [retryGo, hfail attempt]
    simp only [hcaught attempt, hnq attempt, hlt, Bool.not_true, Bool.false_eq_true,
      not_false_eq_true, if_true, if_false, ite_true, ite_false]
    cases hd : delayStep (es attempt) (attempt + 1) cfg (uJ (attempt + 1)) (rU (attempt + 1)) with
    | immediate =>
      dsimp only
      exact ih (attempt + 1) sleeps (by omega)
    | sleep d =>
      dsimp only
      exact ih (attempt + 1) (d :: sleeps) (by omega)

/-! ## Claims about the retry policy -/

/-- C10: a call of a function wrapped by `exponential_backoff(max_retries = n)`
always terminates with the operation invoked at most `n + 1` times; when every
invocation raises a caught (retryable) non-quota exception the operation is
invoked exactly `n + 1` times — one initial attempt plus `n` retries — and the
last exception is re-raised. -/
theorem c10_retry_invocation_bound {α : Type} (cfg : RetryConfig)
    (f : Nat → Except PyExc α) (uJ rU : Nat → ℚ) (es : Nat → PyExc)
    (hfail : ∀ k, f k = .error (es k))
    (hcaught : ∀ k, (es k).caughtBy cfg.exceptions = true)
    (hnq : ∀ k, (es k).isInstance .keapQuotaExhaustedError = false) :
    (∀ (g : Nat → Except PyExc α),
      (exponentialBackoffRun cfg g uJ rU).invocations ≤ cfg.maxRetries + 1) ∧
    (exponentialBackoffRun cfg f uJ rU).invocations = cfg.maxRetries + 1 ∧
    (exponentialBackoffRun cfg f uJ rU).result = .error (es cfg.maxRetries) := by
  refine ⟨fun g => ?_, ?_, ?_⟩
  · have := retryGo_invocations_le cfg g uJ rU cfg.maxRetries 0 []
    unfold exponentialBackoffRun
    omega
  · exact (retryGo_all_fail cfg f uJ rU es hfail hcaught hnq cfg.maxRetries 0 [] (by omega)).1
  · exact (retryGo_all_fail cfg f uJ rU es hfail hcaught hnq cfg.maxRetries 0 [] (by omega)).2

/-- Witness for C10 at the repository's configuration, with an operation that
always raises `KeapServerError`. -/
theorem c10_retry_invocation_bound_witness :
    (exponentialBackoffRun loaderRetryConfig
      (fun _ => (.error .serverError : Except PyExc Unit)) (fun _ => 0) (fun _ => 0)).invocations = 6 ∧
    (exponentialBackoffRun loaderRetryConfig
      (fun _ => (.error .serverError : Except PyExc Unit)) (fun _ => 0) (fun _ => 0)).result =
      .error .serverError :=
  (c10_retry_invocation_bound loaderRetryConfig _ _ _ (fun _ => .serverError)
    (fun _ => rfl) (fun _ => rfl) (fun _ => rfl)).2

/-- C5: an operation that always raises `KeapQuotaExhaustedError` is invoked
exactly once; the exception propagates with no sleep, whatever `max_retries`
is and whether or not quota exhaustion is in the retryable exception tuple. -/
theorem c5_quota_exhausted_short_circuit {α : Type} (cfg : RetryConfig)
    (f : Nat → Except PyExc α) (uJ rU : Nat → ℚ)
    (hq : ∀ k, f k = .error .quotaExhausted) :
    (exponentialBackoffRun cfg f uJ rU).invocations = 1 ∧
    (exponentialBackoffRun cfg f uJ rU).sleeps = [] ∧
    (exponentialBackoffRun cfg f uJ rU).result = .error .quotaExhausted := by
  unfold exponentialBackoffRun
  rw [retryGo, hq 0]
  have hinst : PyExc.quotaExhausted.isInstance .keapQuotaExhaustedError = true := rfl
  by_cases hc : PyExc.quotaExhausted.caughtBy cfg.exceptions
  · simp [hc, hinst]
  · simp [hc]

/-- Witness for C5 at the repository's configuration (quota exhaustion not in
the retryable tuple). -/
theorem c5_quota_exhausted_short_circuit_witness :
    (exponentialBackoffRun loaderRetryConfig
      (fun _ => (.error .quotaExhausted : Except PyExc Unit)) (fun _ => 0) (fun _ => 0)).invocations = 1 ∧
    (exponentialBackoffRun loaderRetryConfig
      (fun _ => (.error .quotaExhausted : Except PyExc Unit)) (fun _ => 0) (fun _ => 0)).sleeps = [] ∧
    (exponentialBackoffRun loaderRetryConfig
      (fun _ => (.error .quotaExhausted : Except PyExc Unit)) (fun _ => 0) (fun _ => 0)).result =
      .error .quotaExhausted :=
  c5_quota_exhausted_short_circuit loaderRetryConfig _ _ _ (fun _ => rfl)

/-- Modelled from the spec wording of claim C4, for comparison with the code:
the fallback delay the claim prescribes for absent or unparsable throttle
metadata — `min(base_delay * backoff_base^(attempt-1), max_delay)`, times a
jitter factor when jitter is enabled. -/
def claimedFallbackDelay (cfg : RetryConfig) (attempt : Nat) (jitterFactor : ℚ) : ℚ :=
  let d := min (cfg.baseDelay * cfg.exponentialBase ^ (attempt - 1)) cfg.maxDelay
  if cfg.jitter then d * jitterFactor else d

/-- C4 counterexample: with the throttle metadata entirely absent (an empty
`response_headers` dict), the code does not fall back to exponential backoff
as the claim states.  `safe_int_parse` turns the two missing headers into 0,
so the handler waits the 60-second throttle window (here 63 s with a jitter
sample of 3), while the claimed fallback at `attempt = 1`, `base_delay = 1`,
`jitter` disabled, would be 1 s. -/
theorem c4_counterexample :
    rateLimitDelay (.dict []) 1
      ⟨5, 1, 60, 2, false, [.keapRateLimitError, .keapServerError]⟩ 3 0 = .sleep 63 ∧
    claimedFallbackDelay ⟨5, 1, 60, 2, false, [.keapRateLimitError, .keapServerError]⟩ 1 1 = 1 ∧
    (63 : ℚ) ≠ 1 := by
  refine ⟨?_, ?_, by norm_num⟩
  · show DelayOutcome.sleep ((60 : ℚ) + 3) = .sleep 63
    have h63 : (60 : ℚ) + 3 = 63 := by norm_num
    rw [h63]
  · show min ((1 : ℚ) * 2 ^ (1 - 1)) 60 = 1
    norm_num

/-- On a dict headers object, the handler reduces to a single decision on the
two safely-parsed counters. -/
theorem rateLimitDelay_dict (h : List (String × String)) (attempt : Nat)
    (cfg : RetryConfig) (uJitter rUnit : ℚ) :
    rateLimitDelay (.dict h) attempt cfg uJitter rUnit =
      if (safe_int_parse (HeadersObj.dictGet h "x-keap-product-throttle-available") 0 > 0 ∧
          safe_int_parse (HeadersObj.dictGet h "x-keap-tenant-throttle-available") 0 > 0)
      then .immediate else .sleep (60 + uJitter) := by
  show (match get_throttle_retry_delay
      (safe_int_parse (HeadersObj.dictGet h "x-keap-product-throttle-available") 0)
      (safe_int_parse (HeadersObj.dictGet h "x-keap-tenant-throttle-available") 0) uJitter with
    | none => DelayOutcome.immediate
    | some d => DelayOutcome.sleep d) = _
  unfold get_throttle_retry_delay
  split_ifs with hc
  · rfl
  · rfl

/-- C4 (amended): on a rate-limit error whose `response_headers` is a dict, if
the parsed product- and tenant-throttle counters are both positive the retry
is immediate (zero delay); otherwise — including when the headers are absent
or their values unparsable, both of which parse to 0 — the delay is 60 s plus
the uniform jitter sample, hence in [60, 70); the exponential fallback
`min(base_delay * backoff_base^(attempt-1), max_delay)` (with its [0.5, 1.5)
jitter factor) is used exactly when the headers object has no `.get` method,
so that reading it raises. -/
theorem c4_rate_limit_delay_amended (h : List (String × String)) (attempt : Nat)
    (cfg : RetryConfig) (uJitter rUnit : ℚ)
    (hj0 : 0 ≤ uJitter) (hj1 : uJitter < 10) :
    ((0 < safe_int_parse (HeadersObj.dictGet h "x-keap-product-throttle-available") 0 ∧
      0 < safe_int_parse (HeadersObj.dictGet h "x-keap-tenant-throttle-available") 0) →
        rateLimitDelay (.dict h) attempt cfg uJitter rUnit = .immediate) ∧
    (¬ (0 < safe_int_parse (HeadersObj.dictGet h "x-keap-product-throttle-available") 0 ∧
        0 < safe_int_parse (HeadersObj.dictGet h "x-keap-tenant-throttle-available") 0) →
        rateLimitDelay (.dict h) attempt cfg uJitter rUnit = .sleep (60 + uJitter) ∧
        60 ≤ 60 + uJitter ∧ 60 + uJitter < 70) ∧
    rateLimitDelay .nonMapping attempt cfg uJitter rUnit =
      .sleep (expBackoffDelay cfg attempt rUnit) := by
  refine ⟨fun hpos => ?_, fun hneg => ?_, rfl⟩
  · rw [rateLimitDelay_dict, if_pos hpos]
  · rw [rateLimitDelay_dict, if_neg hneg]
    exact ⟨rfl, by linarith, by linarith⟩

/-- Witness for the amended C4 at the spec's concrete scenario:
`product-throttle-available = 0`, `tenant-throttle-available = 5`, jitter
sample 3. -/
theorem c4_rate_limit_delay_amended_witness :
    rateLimitDelay
      (.dict [("x-keap-product-throttle-available", "0"), ("x-keap-tenant-throttle-available", "5")])
      1 loaderRetryConfig 3 0 = .sleep (60 + 3) ∧ (60 : ℚ) ≤ 60 + 3 ∧ (60 : ℚ) + 3 < 70 :=
  (c4_rate_limit_delay_amended
    [("x-keap-product-throttle-available", "0"), ("x-keap-tenant-throttle-available", "5")]
    1 loaderRetryConfig 3 0 (by norm_num) (by norm_num)).2.1 (by
      intro hcon
      have h0 : safe_int_parse (HeadersObj.dictGet
          [("x-keap-product-throttle-available", "0"), ("x-keap-tenant-throttle-available", "5")]
          "x-keap-product-throttle-available") 0 = 0 := rfl
      rw [h0] at hcon
      exact absurd hcon.1 (by norm_num))

/-! ## Checkpoint store (src/src/scripts/load_data.py, class CheckpointManager)

The only `CheckpointManager` in the repository stores, per entity type, a
dict `\x7boffset, last_loaded\x7d`; its `save_checkpoint` has the signature
`save_checkpoint(self, entity_type, offset, completed=False)`. -/

/-- Python-level errors the duck-typed checkpoint calls can raise. -/
inductive PyError
  | attributeError (attr : String)
  | typeError (msg : String)
  deriving DecidableEq, Repr

/-- One stored checkpoint entry: `\x7b'offset': ..., 'last_loaded': ...\x7d`. -/
structure Checkpoint where
  offset : Int
  last_loaded : Option String
  deriving DecidableEq, Repr

/-- The in-memory `self.checkpoints` dict (entity type → entry), with Python
dict insertion order. -/
abbrev CheckpointState := List (String × Checkpoint)

/-- A Python value arriving in the `completed` parameter position.  The old
loaders pass a bool (or omit it); `base_loader` passes its `api_offset` int
positionally.  `truthy` is Python truthiness. -/
inductive PyVal
  | bool (b : Bool)
  | int (n : Int)
  deriving DecidableEq, Repr

/-- Python truthiness of such a value. -/
def PyVal.truthy : PyVal → Bool
  | .bool b => b
  | .int n => n != 0

namespace CheckpointManager

/-- The attributes the class `CheckpointManager` defines (load_data.py lines
123-194), which is what Python attribute lookup on an instance resolves
against (besides the instance fields set in `__init__`). -/
def methodNames : List String :=
  ["__init__", "_load_checkpoints", "save_checkpoint", "get_checkpoint",
   "get_last_loaded_timestamp", "clear_checkpoints", "get_query_params"]

/-- Python attribute lookup of a method on a `CheckpointManager` instance:
an undefined name raises `AttributeError`. -/
def getMethod (name : String) : Except PyError Unit :=
  if methodNames.contains name then .ok () else .error (.attributeError name)

/-- `save_checkpoint(entity_type, offset, completed=False)` (load_data.py
lines 142-159): create the entry if absent, overwrite its `offset`, and stamp
`last_loaded` with the current time exactly when `completed` is truthy.
`now` is the sampled `datetime.now(timezone.utc).isoformat()`. -/
def save_checkpoint (st : CheckpointState) (entity_type : String) (offset : Int)
    (completed : PyVal) (now : String) : CheckpointState :=
  let st1 := if (st.lookup entity_type).isSome then st
             else st ++ [(entity_type, ⟨0, none⟩)]
  st1.map (fun p =>
    if p.1 = entity_type then
      (p.1, ⟨offset, if completed.truthy then some now else p.2.last_loaded⟩)
    else p)

/-- `get_checkpoint` (load_data.py lines 161-163): the stored offset,
defaulting to 0. -/
def get_checkpoint (st : CheckpointState) (entity_type : String) : Int :=
  (((st.lookup entity_type).getD ⟨0, none⟩)).offset

/-- `get_last_loaded_timestamp` (load_data.py lines 165-167). -/
def get_last_loaded_timestamp (st : CheckpointState) (entity_type : String) : Option String :=
  (st.lookup entity_type).bind Checkpoint.last_loaded

/-- `get_query_params` (load_data.py lines 176-194): on an update with a
truthy `last_loaded` timestamp, produce the `since` filter. -/
def get_query_params (st : CheckpointState) (entity_type : String) (update : Bool) :
    List (String × String) :=
  if update then
    match get_last_loaded_timestamp st entity_type with
    | some t => if t = "" then [] else [("since", t)]
    | none => []
  else []

end CheckpointManager

/-! ## Entity loader template (src/src/scripts/loaders/base_loader.py) -/

/-- `LoadResult` (base_loader.py lines 24-29). -/
structure LoadResult where
  total_records : Nat
  success_count : Nat
  failed_count : Nat
  deriving DecidableEq, Repr

/-- One response page of `get_entities`: the item ids, and
`pagination.get('next')` — `none` when there is no truthy `next` value,
`some none` when the next URL is present but `_parse_next_url` returns
`None`, `some (some k)` when it parses to offset `k`. -/
structure Page where
  items : List Int
  next : Option (Option Int)
  deriving DecidableEq, Repr

/-- Outcome of one `load_entity_by_id` call as seen by the pagination loop:
a returned bool, or a raised exception. -/
inductive ItemOutcome
  | ok (success : Bool)
  | exc
  deriving DecidableEq, Repr

/-- One `get_entities` (list) call as issued by the loop. -/
structure ListCall where
  limit : Int
  offset : Int
  params : List (String × String)
  deriving DecidableEq, Repr

/-- The two checkpoint saves `_load_with_pagination` performs against its
duck-typed `checkpoint_manager` (typed `Any` in the source): the per-page
save `save_checkpoint(et, total_records, api_offset)` and the completion
save `save_checkpoint(et, total_records, api_offset, completed=True)`.
Arguments are `(state, entity_type, total_records, api_offset)`. -/
structure CheckpointCalls (σ : Type) where
  saveMid : σ → String → Nat → Int → Except PyError σ
  saveCompleted : σ → String → Nat → Int → Except PyError σ

/-- Tally of one page's item loop (base_loader.py lines 133-145). -/
structure ItemTally where
  success : Nat
  failed : Nat
  attempted : List Int
  deriving DecidableEq, Repr

/-- The per-item loop of `_load_with_pagination`: success counts on `True`,
failure counts on `False` and on a raised exception (which is logged and
`continue`d past), and the loop always proceeds to the next item. -/
def processItems (loadById : Int → ItemOutcome) : List Int → Nat → Nat → ItemTally
  | [], s, f => ⟨s, f, []⟩
  | i :: rest, s, f =>
    let step : Nat × Nat :=
      match loadById i with
      | .ok true => (s + 1, f)
      | .ok false => (s, f + 1)
      | .exc => (s, f + 1)
    let t := processItems loadById rest step.1 step.2
    ⟨t.success, t.failed, i :: t.attempted⟩

/-- Observable behaviour of one `_load_with_pagination` (or `load_all`) run:
the list calls issued, the item ids handed to `load_entity_by_id`, the
returned `LoadResult` or raised error, and the final checkpoint state. -/
structure PagTrace (σ : Type) where
  calls : List ListCall
  attempted : List Int
  result : Except PyError LoadResult
  ckpt : σ
  deriving Repr

/-- The `while True` loop of `_load_with_pagination` (base_loader.py lines
124-163).  `script` is the sequence of pages the upstream returns to the
successive `get_entities` calls; when it is exhausted the upstream returns an
empty page.  `total`, `s`, `f` are `total_records`, `success_count`,
`failed_count`; `calls` and `att` accumulate the trace. -/
def loadPagGo {σ : Type} (cm : CheckpointCalls σ) (loadById : Int → ItemOutcome)
    (entity_type : String) (batch_size : Int) (query_params : List (String × String)) :
    List Page → Int → Nat → Nat → Nat → σ → List ListCall → List Int → PagTrace σ
  | [], api_offset, total, s, f, st, calls, att =>
    match cm.saveCompleted st entity_type total api_offset with
    | .error e => ⟨calls ++ [⟨batch_size, api_offset, query_params⟩], att, .error e, st⟩
    | .ok st' => ⟨calls ++ [⟨batch_size, api_offset, query_params⟩], att, .ok ⟨total, s, f⟩, st'⟩
  | page :: rest, api_offset, total, s, f, st, calls, att =>
    if page.items.isEmpty then
      match cm.saveCompleted st entity_type total api_offset with
      | .error e => ⟨calls ++ [⟨batch_size, api_offset, query_params⟩], att, .error e, st⟩
      | .ok st' => ⟨calls ++ [⟨batch_size, api_offset, query_params⟩], att, .ok ⟨total, s, f⟩, st'⟩
    else
      match cm.saveMid st entity_type (total + page.items.length) api_offset with
      | .error e =>
        ⟨calls ++ [⟨batch_size, api_offset, query_params⟩],
          att ++ (processItems loadById page.items s f).attempted, .error e, st⟩
      | .ok st' =>
        match page.next with
        | none =>
          match cm.saveCompleted st' entity_type (total + page.items.length) api_offset with
          | .error e =>
            ⟨calls ++ [⟨batch_size, api_offset, query_params⟩],
              att ++ (processItems loadById page.items s f).attempted, .error e, st'⟩
          | .ok st'' =>
            ⟨calls ++ [⟨batch_size, api_offset, query_params⟩],
              att ++ (processItems loadById page.items s f).attempted,
              .ok ⟨total + page.items.length, (processItems loadById page.items s f).success,
                (processItems loadById page.items s f).failed⟩, st''⟩
        | some none =>
          match cm.saveCompleted st' entity_type (total + page.items.length) api_offset with
          | .error e =>
            ⟨calls ++ [⟨batch_size, api_offset, query_params⟩],
              att ++ (processItems loadById page.items s f).attempted, .error e, st'⟩
          | .ok st'' =>
            ⟨calls ++ [⟨batch_size, api_offset, query_params⟩],
              att ++ (processItems loadById page.items s f).attempted,
              .ok ⟨total + page.items.length, (processItems loadById page.items s f).success,
                (processItems loadById page.items s f).failed⟩, st''⟩
        | some (some next_offset) =>
          loadPagGo cm loadById entity_type batch_size query_params rest next_offset
            (total + page.items.length) (processItems loadById page.items s f).success
            (processItems loadById page.items s f).failed st'
            (calls ++ [⟨batch_size, api_offset, query_params⟩])
            (att ++ (processItems loadById page.items s f).attempted)

/-- `_load_with_pagination(batch_size, offset, query_params)`. -/
def loadWithPagination {σ : Type} (cm : CheckpointCalls σ) (loadById : Int → ItemOutcome)
    (entity_type : String) (batch_size : Int) (offset : Int)
    (query_params : List (String × String)) (script : List Page) (st : σ) : PagTrace σ :=
  loadPagGo cm loadById entity_type batch_size query_params script offset 0 0 0 st [] []

namespace EntityLoader

/-- `EntityLoader.get_query_params` (base_loader.py lines 73-77). -/
def get_query_params (supports_since update : Bool) (cst : CheckpointState)
    (entity_type : String) : List (String × String) :=
  if update && supports_since then CheckpointManager.get_query_params cst entity_type update
  else []

/-- `EntityLoader.get_initial_offset` (base_loader.py lines 79-89): 0 on an
update for a since-supporting type; otherwise the method resolves
`self.checkpoint_manager.get_api_offset` — a name the `CheckpointManager`
class does not define, so the attribute lookup raises.  The `.ok` arm under a
successful lookup is unreachable, since `get_api_offset` is defined nowhere
in the repository. -/
def get_initial_offset (supports_since update : Bool) (cst : CheckpointState)
    (entity_type : String) : Except PyError Int :=
  if update && supports_since then .ok 0
  else
    match CheckpointManager.getMethod "get_api_offset" with
    | .ok _ => .ok (CheckpointManager.get_checkpoint cst entity_type)
    | .error e => .error e

/-- `EntityLoader.load_all` for a pagination-supporting type (base_loader.py
lines 91-111): compute the query params and starting offset, then run the
pagination loop.  A raised error propagates (after logging). -/
def load_all {σ : Type} (supports_since : Bool) (cm : CheckpointCalls σ)
    (loadById : Int → ItemOutcome) (entity_type : String) (batch_size : Int)
    (update : Bool) (cst : CheckpointState) (script : List Page) (st : σ) : PagTrace σ :=
  let query_params := get_query_params supports_since update cst entity_type
  match get_initial_offset supports_since update cst entity_type with
  | .error e => ⟨[], [], .error e, st⟩
  | .ok offset => loadWithPagination cm loadById entity_type batch_size offset query_params script st

end EntityLoader

/-- The checkpoint saves of `_load_with_pagination` as resolved against the
actual `CheckpointManager` of load_data.py.  The per-page save
`save_checkpoint(et, total_records, api_offset)` binds positionally:
`offset := total_records` and `completed := api_offset` (an int, truthy
whenever non-zero).  The completion save passes three positional arguments
plus `completed=True`, so Python raises `TypeError: got multiple values for
argument completed`. -/
def realCheckpointCalls (now : String) : CheckpointCalls CheckpointState where
  saveMid st et total off :=
    .ok (CheckpointManager.save_checkpoint st et (Int.ofNat total) (.int off) now)
  saveCompleted _st _et _total _off :=
    .error (.typeError "save_checkpoint got multiple values for argument completed")

/-- A checkpoint manager satisfying the interface the loader template
expects: saves always succeed and the state is irrelevant. -/
def pureCheckpointCalls : CheckpointCalls Unit where
  saveMid _ _ _ _ := .ok ()
  saveCompleted _ _ _ _ := .ok ()

/-! ## Pagination loop lemmas -/

/-- The item loop never aborts: every item of the page is attempted. -/
theorem processItems_attempted (loadById : Int → ItemOutcome) :
    ∀ items s f, (processItems loadById items s f).attempted = items := by
  intro items
  induction items with
  | nil => intro s f; rfl
  | cons i rest ih =>
    intro s f
    cases h : loadById i with
    | ok b => cases b <;> simp [processItems, h, ih]
    | exc => simp [processItems, h, ih]

/-- Each failing item (a `False` return or a raised exception) adds exactly
one to `failed_count`. -/
theorem processItems_failed (loadById : Int → ItemOutcome) :
    ∀ items s f, (processItems loadById items s f).failed =
      f + items.countP (fun i => loadById i != ItemOutcome.ok true) := by
  intro items
  induction items with
  | nil => intro s f; simp [processItems]
  | cons i rest ih =>
    intro s f
    cases h : loadById i with
    | ok b =>
      cases b <;> simp [processItems, h, ih, List.countP_cons]
      omega
    | exc => simp [processItems, h, ih, List.countP_cons]; omega

/-- Each successful item adds exactly one to `success_count`. -/
theorem processItems_success (loadById : Int → ItemOutcome) :
    ∀ items s f, (processItems loadById items s f).success =
      s + items.countP (fun i => loadById i == ItemOutcome.ok true) := by
  intro items
  induction items with
  | nil => intro s f; simp [processItems]
  | cons i rest ih =>
    intro s f
    cases h : loadById i with
    | ok b =>
      cases b <;> simp [processItems, h, ih, List.countP_cons]
      omega
    | exc => simp [processItems, h, ih, List.countP_cons]

/-- The page tally preserves `total = success + failed`. -/
theorem processItems_sum (loadById : Int → ItemOutcome) :
    ∀ items s f, (processItems loadById items s f).success + (processItems loadById items s f).failed =
      s + f + items.length := by
  intro items
  induction items with
  | nil => intro s f; simp [processItems]
  | cons i rest ih =>
    intro s f
    cases h : loadById i with
    | ok b =>
      cases b <;> simp [processItems, h] <;> rw [ih] <;> omega
    | exc => simp [processItems, h]; rw [ih]; omega

/-- The first list call the loop issues uses the starting offset and the
given query params; later calls only append. -/
theorem pagTrace_calls_suffix_step {σ : Type} (X : PagTrace σ) (c c2 : ListCall)
    (calls : List ListCall) (h : ∃ suf, X.calls = (calls ++ [c]) ++ (c2 :: suf)) :
    ∃ suffix, X.calls = calls ++ (c :: suffix) := by
  obtain ⟨suf, h⟩ := h
  exact ⟨c2 :: suf, by rw [h]; simp⟩

/-- The first list call the loop issues uses the starting offset and the
given query params; later calls only append. -/
theorem loadPagGo_calls_prefix {σ : Type} (cm : CheckpointCalls σ) (loadById : Int → ItemOutcome)
    (et : String) (batch : Int) (params : List (String × String)) :
    ∀ script api_offset total s f st calls att,
    ∃ suffix, (loadPagGo cm loadById et batch params script api_offset total s f st calls att).calls =
      calls ++ (⟨batch, api_offset, params⟩ :: suffix) := by
  intro script
  induction script with
  | nil =>
    intro api_offset total s f st calls att
    rw [loadPagGo]
    split <;> exact ⟨[], by simp⟩
  | cons page rest ih =>
    intro api_offset total s f st calls att
    rw [loadPagGo]
    by_cases hempty : page.items.isEmpty
    · rw [if_pos hempty]
      split <;> exact ⟨[], by simp⟩
    · rw [if_neg hempty]
      split
      · exact ⟨[], by simp⟩
      · split
        · split <;> exact ⟨[], by simp⟩
        · split <;> exact ⟨[], by simp⟩
        · exact pagTrace_calls_suffix_step _ _ _ _ (ih _ _ _ _ _ _ _)

/-- Loop invariant: if `total_records = success_count + failed_count` holds at
entry, any normally returned `LoadResult` satisfies it too. -/
theorem loadPagGo_ok_sum {σ : Type} (cm : CheckpointCalls σ) (loadById : Int → ItemOutcome)
    (et : String) (batch : Int) (params : List (String × String)) :
    ∀ script api_offset total s f st calls att, total = s + f →
    ∀ r, (loadPagGo cm loadById et batch params script api_offset total s f st calls att).result = .ok r →
      r.total_records = r.success_count + r.failed_count := by
  intro script
  induction script with
  | nil =>
    intro api_offset total s f st calls att hinv r hr
    rw [loadPagGo] at hr
    split at hr
    · dsimp only at hr
      cases hr
    · dsimp only at hr
      cases hr
      exact hinv
  | cons page rest ih =>
    intro api_offset total s f st calls att hinv r hr
    rw [loadPagGo] at hr
    have hsum := processItems_sum loadById page.items s f
    by_cases hempty : page.items.isEmpty
    · rw [if_pos hempty] at hr
      split at hr
      · dsimp only at hr
        cases hr
      · dsimp only at hr
        cases hr
        exact hinv
    · rw [if_neg hempty] at hr
      split at hr
      · dsimp only at hr
        cases hr
      · split at hr
        · split at hr
          · dsimp only at hr
            cases hr
          · dsimp only at hr
            cases hr
            dsimp only
            omega
        · split at hr
          · dsimp only at hr
            cases hr
          · dsimp only at hr
            cases hr
            dsimp only
            omega
        · exact ih _ _ _ _ _ _ _ (by omega) r hr

/-! ## Claims about checkpointing and the pagination loop -/

/-- C1 (evaluating the code at the failing input): for a pagination-capable
type with a stored checkpoint at offset 150, a fresh `load_all(update=false)`
never obtains a starting offset at all — `get_initial_offset` resolves
`checkpoint_manager.get_api_offset`, a method the `CheckpointManager` class
does not define, so the lookup raises `AttributeError` and `load_all`
re-raises it before issuing any list call. -/
theorem c1_fresh_load_attribute_error :
    EntityLoader.get_initial_offset true false [("contacts", ⟨150, none⟩)] "contacts" =
      .error (.attributeError "get_api_offset") ∧
    (EntityLoader.load_all true (realCheckpointCalls "T0") (fun _ => .ok true) "contacts" 50 false
        [("contacts", ⟨150, none⟩)] [⟨[1001, 1002], none⟩] [("contacts", ⟨150, none⟩)]).result =
      .error (.attributeError "get_api_offset") ∧
    (EntityLoader.load_all true (realCheckpointCalls "T0") (fun _ => .ok true) "contacts" 50 false
        [("contacts", ⟨150, none⟩)] [⟨[1001, 1002], none⟩] [("contacts", ⟨150, none⟩)]).calls = [] :=
  ⟨rfl, rfl, rfl⟩

/-- A two-page upstream script: page one returns items 1, 2 with a next
cursor at offset 50; page two returns item 3 with a next cursor at 100. -/
def c2Script : List Page := [⟨[1, 2], some (some 50)⟩, ⟨[3], some (some 100)⟩]

/-- C2 (evaluating the code at the failing input): through
`_load_with_pagination` against the actual `CheckpointManager`, the per-page
save `save_checkpoint(et, total_records, api_offset)` binds `api_offset`
positionally into the `completed` parameter.  On the second page of an
update run (`api_offset = 50`, truthy) the mid-run save therefore stamps
`last_loaded` even though the traversal never completed — indeed the run
then dies with a `TypeError` at the completion save.  The third conjunct
shows the first page's save (`api_offset = 0`, falsy) not stamping, pinning
the int-truthiness binding. -/
theorem c2_midrun_stamp_and_completion_type_error :
    CheckpointManager.get_last_loaded_timestamp
      (EntityLoader.load_all true (realCheckpointCalls "T1") (fun _ => .ok true)
        "contacts" 50 true [] c2Script []).ckpt "contacts" = some "T1" ∧
    (EntityLoader.load_all true (realCheckpointCalls "T1") (fun _ => .ok true)
        "contacts" 50 true [] c2Script []).result =
      .error (.typeError "save_checkpoint got multiple values for argument completed") ∧
    CheckpointManager.save_checkpoint [] "contacts" 2 (.int 0) "T1" =
      [("contacts", ⟨2, none⟩)] :=
  ⟨rfl, rfl, rfl⟩

/-- C6: with a stored completion timestamp `T` (non-empty, as an ISO-8601
timestamp is), `load_all(update=true)` for a since-supporting type builds
query params `since=T` and starting offset 0, and its very first list call
carries `since=T` at offset 0 — whatever offset the checkpoint state has
stored. -/
theorem c6_update_since_filter_and_zero_offset {σ : Type} (cm : CheckpointCalls σ)
    (loadById : Int → ItemOutcome) (entity_type T : String) (batch : Int)
    (cst : CheckpointState) (script : List Page) (st : σ)
    (hT : CheckpointManager.get_last_loaded_timestamp cst entity_type = some T)
    (hTne : T ≠ "") :
    EntityLoader.get_query_params true true cst entity_type = [("since", T)] ∧
    EntityLoader.get_initial_offset true true cst entity_type = .ok 0 ∧
    (EntityLoader.load_all true cm loadById entity_type batch true cst script st).calls.head? =
      some ⟨batch, 0, [("since", T)]⟩ := by
  have hq : EntityLoader.get_query_params true true cst entity_type = [("since", T)] := by
    simp [EntityLoader.get_query_params, CheckpointManager.get_query_params, hT, hTne]
  refine ⟨hq, rfl, ?_⟩
  show (loadPagGo cm loadById entity_type batch
      (EntityLoader.get_query_params true true cst entity_type) script 0 0 0 0 st [] []).calls.head? = _
  rw [hq]
  obtain ⟨suf, hsuf⟩ := loadPagGo_calls_prefix cm loadById entity_type batch
    [("since", T)] script 0 0 0 0 st [] []
  rw [hsuf]
  rfl

/-- Witness for C6: stored checkpoint `(offset 150, last_loaded "TS")`; the
update run's first list call is at offset 0 with `since=TS`. -/
theorem c6_update_since_filter_and_zero_offset_witness :
    EntityLoader.get_query_params true true [("contacts", ⟨150, some "TS"⟩)] "contacts" =
      [("since", "TS")] ∧
    EntityLoader.get_initial_offset true true [("contacts", ⟨150, some "TS"⟩)] "contacts" = .ok 0 ∧
    (EntityLoader.load_all true pureCheckpointCalls (fun _ => .ok true) "contacts" 50 true
        [("contacts", ⟨150, some "TS"⟩)] [⟨[1], none⟩] ()).calls.head? =
      some ⟨50, 0, [("since", "TS")]⟩ :=
  c6_update_since_filter_and_zero_offset pureCheckpointCalls (fun _ => .ok true) "contacts" "TS"
    50 [("contacts", ⟨150, some "TS"⟩)] [⟨[1], none⟩] () rfl (by decide)

/-- C7: failure isolation of the pagination item loop.  For any page, every
item is attempted (the loop never aborts on a `False` return or a raised
exception), each failing item adds exactly one to `failed_count`, each
successful one exactly one to `success_count`; and any `LoadResult` the loop
returns satisfies `total_records = success_count + failed_count`. -/
theorem c7_failure_isolation {σ : Type} (cm : CheckpointCalls σ) (loadById : Int → ItemOutcome)
    (entity_type : String) (batch : Int) (off : Int) (params : List (String × String))
    (script : List Page) (st : σ) :
    (∀ items s f,
      (processItems loadById items s f).attempted = items ∧
      (processItems loadById items s f).failed =
        f + items.countP (fun i => loadById i != ItemOutcome.ok true) ∧
      (processItems loadById items s f).success =
        s + items.countP (fun i => loadById i == ItemOutcome.ok true)) ∧
    ∀ r, (loadWithPagination cm loadById entity_type batch off params script st).result = .ok r →
      r.total_records = r.success_count + r.failed_count := by
  refine ⟨fun items s f => ⟨processItems_attempted loadById items s f,
    processItems_failed loadById items s f, processItems_success loadById items s f⟩, ?_⟩
  intro r hr
  exact loadPagGo_ok_sum cm loadById entity_type batch params script off 0 0 0 st [] [] rfl r hr

/-- The spec's exhausted-retries scenario: item 7 of a 10-item page always
fails (its retries exhaust and the error is re-raised into the loop); all
other items succeed. -/
def failAt7 : Int → ItemOutcome := fun i => if i = 7 then .exc else .ok true

/-- Witness for C7 at that scenario: all ten items are attempted and the
page's returned `LoadResult` is `(10, 9, 1)` with `10 = 9 + 1`. -/
theorem c7_failure_isolation_witness :
    (LoadResult.mk 10 9 1).total_records =
      (LoadResult.mk 10 9 1).success_count + (LoadResult.mk 10 9 1).failed_count ∧
    (processItems failAt7 [1, 2, 3, 4, 5, 6, 7, 8, 9, 10] 0 0).attempted =
      [1, 2, 3, 4, 5, 6, 7, 8, 9, 10] :=
  ⟨(c7_failure_isolation pureCheckpointCalls failAt7 "contacts" 10 0 []
      [⟨[1, 2, 3, 4, 5, 6, 7, 8, 9, 10], none⟩] ()).2 ⟨10, 9, 1⟩ rfl,
   ((c7_failure_isolation pureCheckpointCalls failAt7 "contacts" 10 0 []
      [⟨[1, 2, 3, 4, 5, 6, 7, 8, 9, 10], none⟩] ()).1 [1, 2, 3, 4, 5, 6, 7, 8, 9, 10] 0 0).1⟩

/-! ## Pipeline orchestrator (src/src/scripts/load_data_manager.py) -/

/-- The fixed dependency-ordered entity list of `DataLoadManager.load_all_data`
(load_data_manager.py lines 88-99). -/
def load_order : List String :=
  ["custom_fields", "tags", "products", "contacts", "opportunities", "affiliates",
   "orders", "tasks", "notes", "campaigns", "subscriptions"]

/-- The `for entity_type in load_order` loop of `load_all_data` (lines
101-113): a successful `_load_entity_type` adds its three counts to the
aggregate; a raised exception is caught, logged, counted as one failure, and
the loop continues.  `attempted` records, in order, the types for which a
load was attempted. -/
def loadAllDataGo (results : String → Except PyError LoadResult) :
    List String → LoadResult → List String → LoadResult × List String
  | [], acc, attempted => (acc, attempted)
  | et :: rest, acc, attempted =>
    match results et with
    | .ok r => loadAllDataGo results rest
        ⟨acc.total_records + r.total_records, acc.success_count + r.success_count,
         acc.failed_count + r.failed_count⟩ (attempted ++ [et])
    | .error _ => loadAllDataGo results rest
        ⟨acc.total_records, acc.success_count, acc.failed_count + 1⟩ (attempted ++ [et])

/-- `DataLoadManager.load_all_data`: run the loop over the fixed order from a
zero aggregate. -/
def load_all_data (results : String → Except PyError LoadResult) : LoadResult × List String :=
  loadAllDataGo results load_order ⟨0, 0, 0⟩ []

/-- Closed form of the orchestrator loop. -/
theorem loadAllDataGo_spec (results : String → Except PyError LoadResult) :
    ∀ (l : List String) (acc : LoadResult) (attempted : List String),
    (loadAllDataGo results l acc attempted).2 = attempted ++ l ∧
    (loadAllDataGo results l acc attempted).1.total_records =
      acc.total_records +
        ((l.filterMap (fun et => (results et).toOption)).map LoadResult.total_records).sum ∧
    (loadAllDataGo results l acc attempted).1.success_count =
      acc.success_count +
        ((l.filterMap (fun et => (results et).toOption)).map LoadResult.success_count).sum ∧
    (loadAllDataGo results l acc attempted).1.failed_count =
      acc.failed_count +
        ((l.filterMap (fun et => (results et).toOption)).map LoadResult.failed_count).sum +
        l.countP (fun et => (results et).toOption.isNone) := by
  intro l
  induction l with
  | nil => intro acc attempted; simp [loadAllDataGo]
  | cons et rest ih =>
    intro acc attempted
    cases h : results et with
    | ok r =>
      have := ih ⟨acc.total_records + r.total_records, acc.success_count + r.success_count,
        acc.failed_count + r.failed_count⟩ (attempted ++ [et])
      simp only [loadAllDataGo, h] at this ⊢
      simp [List.filterMap_cons, List.countP_cons, Except.toOption, h, this]
      omega
    | error e =>
      have := ih ⟨acc.total_records, acc.success_count, acc.failed_count + 1⟩ (attempted ++ [et])
      simp only [loadAllDataGo, h] at this ⊢
      simp [List.filterMap_cons, List.countP_cons, Except.toOption, h, this]
      omega

/-- C8: `load_all_data` attempts exactly the fixed order custom_fields, tags,
products, contacts, opportunities, affiliates, orders, tasks, notes,
campaigns, subscriptions, summing each successful loader's counts; an entity
type whose `load_all` raises is caught, contributes exactly one failure to
the aggregate, and every subsequent type is still attempted. -/
theorem c8_orchestrator_fixed_order_and_isolation
    (results : String → Except PyError LoadResult) :
    (load_all_data results).2 = load_order ∧
    (load_all_data results).1.total_records =
      ((load_order.filterMap (fun et => (results et).toOption)).map
        LoadResult.total_records).sum ∧
    (load_all_data results).1.success_count =
      ((load_order.filterMap (fun et => (results et).toOption)).map
        LoadResult.success_count).sum ∧
    (load_all_data results).1.failed_count =
      ((load_order.filterMap (fun et => (results et).toOption)).map
        LoadResult.failed_count).sum +
      load_order.countP (fun et => (results et).toOption.isNone) := by
  have h := loadAllDataGo_spec results load_order ⟨0, 0, 0⟩ []
  unfold load_all_data
  refine ⟨by simpa using h.1, by simpa using h.2.1, by simpa using h.2.2.1,
    by simpa using h.2.2.2⟩

/-! ## Error reprocessor (src/src/scripts/reprocess_errors.py) -/

/-- One record of the error ledger, with the fields `should_reprocess_entity`
and `reprocess_failed_entities` read. -/
structure ErrorRecord where
  entity_type : String
  entity_id : Int
  error_type : String
  error_message : String
  deriving DecidableEq, Repr

/-- Python `'pat' in s` on strings. -/
def strContainsSub (s pat : String) : Bool := decide (pat.toList <:+: s.toList)

/-- `should_reprocess_entity` (reprocess_errors.py lines 124-134): only
records whose `error_type` is `IntegrityError` and whose message mentions
`ForeignKeyViolation` are selected. -/
def should_reprocess_entity (r : ErrorRecord) : Bool :=
  r.error_type == "IntegrityError" && strContainsSub r.error_message "ForeignKeyViolation"

/-- What the per-type load function of `reprocess_entity` does for a given
`(entity_type, entity_id)`: return True, return False, or raise.  `none`
models a type with no load function in `load_functions` or
`custom_load_functions` (e.g. tags). -/
inductive LoadFnOutcome
  | success
  | failure
  | raises
  deriving DecidableEq, Repr

/-- The two reprocessing counters of `self.stats`. -/
structure ReprocessStats where
  successful_reprocesses : Nat
  failed_reprocesses : Nat
  deriving DecidableEq, Repr

/-- `reprocess_entity` (reprocess_errors.py lines 136-166): dispatch to the
type's load function; count success / failure; a raised exception is caught,
counted as a failed reprocess, and `False` is returned — nothing propagates.
A type with no load function returns `False` without touching the counters. -/
def reprocess_entity (loadFns : String → Int → Option LoadFnOutcome)
    (stats : ReprocessStats) (entity_type : String) (entity_id : Int) :
    Bool × ReprocessStats :=
  match loadFns entity_type entity_id with
  | none => (false, stats)
  | some .success => (true, ⟨stats.successful_reprocesses + 1, stats.failed_reprocesses⟩)
  | some .failure => (false, ⟨stats.successful_reprocesses, stats.failed_reprocesses + 1⟩)
  | some .raises => (false, ⟨stats.successful_reprocesses, stats.failed_reprocesses + 1⟩)

/-- The loop of `reprocess_failed_entities` (reprocess_errors.py lines
191-206): skip records not selected by `should_reprocess_entity`; for the
rest, reprocess only when `entity_type` and `entity_id` are both truthy
(`if entity_type and entity_id`).  `replayed` records, in order, the
`(entity_type, entity_id)` pairs handed to `reprocess_entity`. -/
def reprocessFailedGo (loadFns : String → Int → Option LoadFnOutcome) :
    List ErrorRecord → ReprocessStats → List (String × Int) →
    ReprocessStats × List (String × Int)
  | [], stats, replayed => (stats, replayed)
  | r :: rest, stats, replayed =>
    if should_reprocess_entity r then
      if r.entity_type != "" && r.entity_id != 0 then
        reprocessFailedGo loadFns rest
          (reprocess_entity loadFns stats r.entity_type r.entity_id).2
          (replayed ++ [(r.entity_type, r.entity_id)])
      else reprocessFailedGo loadFns rest stats replayed
    else reprocessFailedGo loadFns rest stats replayed

/-- `reprocess_failed_entities`, from zeroed statistics. -/
def reprocess_failed_entities (loadFns : String → Int → Option LoadFnOutcome)
    (errors : List ErrorRecord) : ReprocessStats × List (String × Int) :=
  reprocessFailedGo loadFns errors ⟨0, 0⟩ []

/-- An integrity/foreign-key error record whose `entity_id` is 0 — as the
loaders write for operation-level failures, and as Python treats as falsy. -/
def c9FkZeroIdRecord : ErrorRecord :=
  ⟨"contacts", 0, "IntegrityError",
   "(psycopg2.errors.ForeignKeyViolation) insert or update on table violates foreign key constraint"⟩

/-- C9 counterexample: this record is an integrity/foreign-key failure —
`should_reprocess_entity` selects it — yet `reprocess_failed_entities` never
replays it, because its falsy `entity_id` fails the `if entity_type and
entity_id` guard.  The claimed "if and only if" is false. -/
theorem c9_counterexample :
    should_reprocess_entity c9FkZeroIdRecord = true ∧
    (reprocess_failed_entities (fun _ _ => some .success) [c9FkZeroIdRecord]).2 = [] :=
  ⟨rfl, rfl⟩

/-- The replay-list characterization of the reprocess loop. -/
theorem reprocessFailedGo_replayed (loadFns : String → Int → Option LoadFnOutcome) :
    ∀ (errors : List ErrorRecord) (stats : ReprocessStats) (replayed : List (String × Int)),
    (reprocessFailedGo loadFns errors stats replayed).2 =
      replayed ++ (errors.filter (fun r => should_reprocess_entity r &&
        (r.entity_type != "" && r.entity_id != 0))).map
          (fun r => (r.entity_type, r.entity_id)) := by
  intro errors
  induction errors with
  | nil => intro stats replayed; simp [reprocessFailedGo]
  | cons r rest ih =>
    intro stats replayed
    by_cases h1 : should_reprocess_entity r
    · by_cases h2 : (r.entity_type != "" && r.entity_id != 0) = true
      · simp [reprocessFailedGo, h1, h2, ih, List.filter_cons]
      · simp [reprocessFailedGo, h1, h2, ih, List.filter_cons]
    · simp [reprocessFailedGo, h1, ih, List.filter_cons]

/-- C9 (amended): the Reprocessor replays an original Error Record if and
only if it is an integrity/foreign-key failure AND its `entity_type` and
`entity_id` are both truthy (non-empty, non-zero); the replay phase is
best-effort — `reprocess_entity` never propagates an exception, returns true
exactly when the type's load function succeeds, and counts one
failed_reprocess exactly when a load function exists and returns false or
raises (a type with no load function yields false without counting). -/
theorem c9_reprocessor_amended (loadFns : String → Int → Option LoadFnOutcome) :
    (∀ errors, (reprocess_failed_entities loadFns errors).2 =
      (errors.filter (fun r => should_reprocess_entity r &&
        (r.entity_type != "" && r.entity_id != 0))).map
          (fun r => (r.entity_type, r.entity_id))) ∧
    (∀ stats et id,
      (reprocess_entity loadFns stats et id).1 = (loadFns et id == some .success) ∧
      (reprocess_entity loadFns stats et id).2.failed_reprocesses =
        stats.failed_reprocesses +
          (if loadFns et id = some .failure ∨ loadFns et id = some .raises then 1 else 0)) := by
  constructor
  · intro errors
    simpa using reprocessFailedGo_replayed loadFns errors ⟨0, 0⟩ []
  · intro stats et id
    cases h : loadFns et id with
    | none => simp [reprocess_entity, h]
    | some o => cases o <;> simp [reprocess_entity, h]

/-! ## Checkpoint file persistence (load_data.py lines 157-158)

`save_checkpoint` persists with `open(self.checkpoint_file, 'w')` followed by
`json.dump(self.checkpoints, f)`: the file is truncated in place and then
rewritten — there is no write-to-temporary-then-rename. -/

/-- The rendering of one checkpoint entry as `json.dump` writes it. -/
def serializeCheckpoint (c : Checkpoint) : String :=
  "\x7b\x22offset\x22: " ++ toString c.offset ++ ", \x22last_loaded\x22: " ++
    (match c.last_loaded with
     | none => "null"
     | some t => "\x22" ++ t ++ "\x22") ++ "\x7d"

/-- The serialized checkpoint dict `json.dump(self.checkpoints, f)` writes. -/
def serializeCheckpoints (st : CheckpointState) : String :=
  "\x7b" ++ String.intercalate ", "
    (st.map (fun p => "\x22" ++ p.1 ++ "\x22: " ++ serializeCheckpoint p.2)) ++ "\x7d"

/-- The file contents a crash can leave behind during an in-place
truncate-then-write of `newContent`: the just-truncated empty file, and every
partial prefix up to the complete new content. -/
def inPlaceWriteCrashStates (newContent : String) : List String :=
  "" :: (List.range newContent.length).map (fun k => newContent.take (k + 1))

/-- A serialized checkpoint dict is never the empty string (it is
brace-delimited). -/
theorem serializeCheckpoints_ne_empty (st : CheckpointState) :
    serializeCheckpoints st ≠ "" := by
  intro h
  have hlen := congrArg String.length h
  unfold serializeCheckpoints at hlen
  rw [String.length_append, String.length_append] at hlen
  have h1 : ("\x7b" : String).length = 1 := rfl
  have h2 : ("\x7d" : String).length = 1 := rfl
  have h0 : ("" : String).length = 0 := rfl
  omega

/-- The stored state before and after a concrete page's checkpoint save:
contacts at offset 150, then saved at offset 200. -/
def c3OldState : CheckpointState := [("contacts", ⟨150, none⟩)]

/-- The new state the save writes. -/
def c3NewState : CheckpointState :=
  CheckpointManager.save_checkpoint c3OldState "contacts" 200 (.bool false) "T2"

/-- C3 counterexample: the persisted checkpoint file does NOT always contain
either the complete previous or the complete new state — the truncated
(empty) file is a crash-observable content equal to neither. -/
theorem c3_counterexample :
    ¬ (∀ s ∈ inPlaceWriteCrashStates (serializeCheckpoints c3NewState),
        s = serializeCheckpoints c3OldState ∨ s = serializeCheckpoints c3NewState) := by
  intro h
  rcases h "" (List.mem_cons_self _ _) with h1 | h1
  · exact serializeCheckpoints_ne_empty c3OldState h1.symm
  · exact serializeCheckpoints_ne_empty c3NewState h1.symm

/-- C3 (amended): for every previous and new checkpoint state, the in-place
truncate-then-write of `save_checkpoint` has a crash-observable intermediate
content — the truncated empty file — that is neither the previous nor the new
serialized state, so a crash mid-save can corrupt the stored checkpoint file
rather than leaving old-or-new; the write is not atomic. -/
theorem c3_save_not_atomic_amended (old new : CheckpointState) :
    "" ∈ inPlaceWriteCrashStates (serializeCheckpoints new) ∧
    "" ≠ serializeCheckpoints old ∧
    "" ≠ serializeCheckpoints new := by
  refine ⟨List.mem_cons_self _ _, ?_, ?_⟩
  · exact fun h => serializeCheckpoints_ne_empty old h.symm
  · exact fun h => serializeCheckpoints_ne_empty new h.symm
